import Mathlib

/-!
Verification development for the StreamFlow airdrop client.

This file gives a shallow embedding, in Lean 4, of the error-classification,
retry, operation-wrapper and batched-fetch layer of the repository
(`types/errors.ts`, `lib/error-handler.ts`, `lib/streamflow.ts`, and the
`useBatchUserAirdropData` hook), and proves the specified properties about it.

Modelling conventions:
- A JavaScript value of union type `T | null` (or `T | undefined`) is embedded
  as `Option`: `none` is the null/undefined/absent marker.  In particular the
  TypeScript union `T | null` where `T` is itself nullable collapses, exactly
  as the union does in TypeScript.
- A JavaScript object used as a string-keyed dictionary is embedded as a
  function `String → Option v`; assignment `o[k] = v` is a pointwise update.
- `ErrorContext` (a free-form diagnostic object) is embedded as an association
  list `List (String × CtxVal)`; the spread `{...ctx, k: v}` is `jsSet`.
- Asynchronous operations that can throw are embedded as `Except RawInput α`
  values (the outcome of one invocation); an operation invoked repeatedly by
  the retry loop is a function `Nat → Except RawInput α` from the attempt
  index to that invocation's outcome.
- `new Date()` timestamps are embedded by threading an abstract clock value
  `now : Nat` into each constructor call.
- `BN` (bn.js arbitrary-precision integer) amounts are embedded as `Int`.
- The external SDK collaborator (key validation, PDA derivation, claim-record
  lookup) is an explicit environment record `ChainEnv` of oracle functions.
-/

/-- Case-insensitive substring test on lists of characters:
`listContainsSub p l` holds when `p` occurs contiguously inside `l`.
Embeds JavaScript `String.prototype.includes`. -/
def listContainsSub (p : List Char) : List Char → Bool
  | [] => p.isEmpty
  | c :: t => p.isPrefixOf (c :: t) || listContainsSub p t

/-- `strContains s pat`: does `s` contain `pat` as a substring?
Embeds `s.includes(pat)`. -/
def strContains (s pat : String) : Bool :=
  listContainsSub pat.toList s.toList

/-- Lowercasing, embedding `s.toLowerCase()`.  (Implemented over the
underlying character list so that it evaluates by kernel reduction.) -/
def strToLower (s : String) : String :=
  ⟨s.data.map Char.toLower⟩

/-- `ErrorCode` enumeration from `types/errors.ts`. -/
inductive ErrorCode where
  | NETWORK_ERROR
  | CONNECTION_TIMEOUT
  | RPC_ERROR
  | INVALID_PUBLIC_KEY
  | ACCOUNT_NOT_FOUND
  | INVALID_ACCOUNT_DATA
  | DISTRIBUTOR_NOT_FOUND
  | WALLET_NOT_CONNECTED
  | WALLET_DISCONNECTED
  | UNAUTHORIZED
  | INVALID_DATA_FORMAT
  | MISSING_REQUIRED_FIELD
  | TYPE_VALIDATION_ERROR
  | TRANSACTION_FAILED
  | TRANSACTION_TIMEOUT
  | UNKNOWN_ERROR
  | INTERNAL_ERROR
  | CONFIGURATION_ERROR
deriving DecidableEq, Repr

/-- A value stored in an `ErrorContext` entry.  The original raw failure that
classification captures under the `originalError` key is stored shallowly:
a generic `Error` object by its message (`rawErrorObj`), a raw string value
(`rawStr`), or some other non-`Error` value (`rawOther`).  (An already
classified `StreamFlowError` is returned unchanged by classification and is
never stored as an `originalError`.) -/
inductive CtxVal where
  | str (s : String)
  | num (n : Nat)
  | strOpt (s : Option String)
  | numOpt (n : Option Int)
  | strList (l : List String)
  | boolVal (b : Bool)
  | rawErrorObj (message : String)
  | rawStr (s : String)
  | rawOther
deriving DecidableEq, Repr

/-- `ErrorContext` from `types/errors.ts`: a free-form string-keyed mapping. -/
abbrev Ctx : Type := List (String × CtxVal)

/-- JavaScript object spread-with-override `{...ctx, k: v}`: if `k` is already
a key its value is replaced in place (key order preserved), otherwise the new
key is appended. -/
def jsSet (ctx : Ctx) (k : String) (v : CtxVal) : Ctx :=
  if ctx.any (fun p => p.1 = k) then
    ctx.map (fun p => if p.1 = k then (k, v) else p)
  else
    ctx ++ [(k, v)]

/-- `StreamFlowError` from `types/errors.ts`: the classified error carrying
code, message, context, creation timestamp and retryability.  The timestamp
is the abstract clock value passed for `new Date()`. -/
structure StreamFlowError where
  code : ErrorCode
  message : String
  context : Ctx
  timestamp : Nat
  retryable : Bool
deriving DecidableEq, Repr

/-- A raw thrown value (`unknown` in TypeScript) as seen by the classifier:
an already classified `StreamFlowError`, a generic `Error` carrying a
message, a plain string, or any other non-`Error` value. -/
inductive RawInput where
  | classified (e : StreamFlowError)
  | errorObj (message : String)
  | strVal (s : String)
  | otherVal
deriving DecidableEq, Repr

/-- `new NetworkError(message, context)` from `types/errors.ts`:
code `NETWORK_ERROR`, retryable. -/
def NetworkError (now : Nat) (message : String) (context : Ctx) : StreamFlowError :=
  { code := .NETWORK_ERROR, message := message, context := context,
    timestamp := now, retryable := true }

/-- `new NotFoundError(code, message, context)` from `types/errors.ts`:
not retryable. -/
def NotFoundError (now : Nat) (code : ErrorCode) (message : String)
    (context : Ctx) : StreamFlowError :=
  { code := code, message := message, context := context,
    timestamp := now, retryable := false }

/-- `createStreamFlowError(error, context)` from `types/errors.ts`: maps an
arbitrary thrown value into the taxonomy.  An already classified error is
passed through unchanged; a generic `Error` is matched by ordered
case-insensitive substring rules on its message; a non-`Error` value becomes
an unknown, retryable error. -/
def createStreamFlowError (now : Nat) (error : RawInput) (context : Ctx) :
    StreamFlowError :=
  match error with
  | .classified e => e
  | .errorObj msg =>
    let message := strToLower msg
    if strContains message ("network") || strContains message ("fetch") then
      NetworkError now msg (jsSet context ("originalError") (.rawErrorObj msg))
    else if strContains message ("timeout") then
      { code := .CONNECTION_TIMEOUT, message := msg, context := context,
        timestamp := now, retryable := true }
    else if strContains message ("account does not exist")
        || strContains message ("account not found") then
      NotFoundError now .ACCOUNT_NOT_FOUND msg context
    else if strContains message ("invalid public key")
        || strContains message ("invalid address") then
      { code := .INVALID_PUBLIC_KEY, message := msg, context := context,
        timestamp := now, retryable := false }
    else if strContains message ("invalid account data") then
      { code := .INVALID_ACCOUNT_DATA, message := msg, context := context,
        timestamp := now, retryable := false }
    else
      { code := .UNKNOWN_ERROR, message := msg,
        context := jsSet context ("originalError") (.rawErrorObj msg),
        timestamp := now, retryable := true }
  | .strVal s =>
    { code := .UNKNOWN_ERROR, message := s,
      context := jsSet context ("originalError") (.rawStr s),
      timestamp := now, retryable := true }
  | .otherVal =>
    { code := .UNKNOWN_ERROR, message := "An unknown error occurred",
      context := jsSet context ("originalError") .rawOther,
      timestamp := now, retryable := true }

/-- `RetryConfig` from `types/errors.ts` (all fields present). -/
structure RetryConfig where
  maxRetries : Nat
  baseDelay : Nat
  maxDelay : Nat
  exponentialBackoff : Bool
deriving DecidableEq, Repr

/-- `DEFAULT_RETRY_CONFIG` from `types/errors.ts`. -/
def DEFAULT_RETRY_CONFIG : RetryConfig :=
  { maxRetries := 3, baseDelay := 1000, maxDelay := 10000,
    exponentialBackoff := true }

/-- `Partial<RetryConfig>`: each field optionally overridden. -/
structure PartialRetryConfig where
  maxRetries : Option Nat
  baseDelay : Option Nat
  maxDelay : Option Nat
  exponentialBackoff : Option Bool
deriving DecidableEq, Repr

/-- The empty partial config `{}` (all defaults). -/
def PartialRetryConfig.empty : PartialRetryConfig :=
  { maxRetries := none, baseDelay := none, maxDelay := none,
    exponentialBackoff := none }

/-- The spread `{...DEFAULT_RETRY_CONFIG, ...config}` at the top of
`withRetry`. -/
def mergeRetryConfig (config : PartialRetryConfig) : RetryConfig :=
  { maxRetries := config.maxRetries.getD DEFAULT_RETRY_CONFIG.maxRetries,
    baseDelay := config.baseDelay.getD DEFAULT_RETRY_CONFIG.baseDelay,
    maxDelay := config.maxDelay.getD DEFAULT_RETRY_CONFIG.maxDelay,
    exponentialBackoff :=
      config.exponentialBackoff.getD DEFAULT_RETRY_CONFIG.exponentialBackoff }

/-- The effective back-off delay computed inside `withRetry` for the 0-indexed
attempt `attempt`: `min(baseDelay * 2^attempt, maxDelay)` when exponential,
else the constant `baseDelay`. -/
def retryDelay (cfg : RetryConfig) (attempt : Nat) : Nat :=
  if cfg.exponentialBackoff then
    min (cfg.baseDelay * 2 ^ attempt) cfg.maxDelay
  else
    cfg.baseDelay

/-- The loop body of `withRetry` from `types/errors.ts`.  `attempt` is the
current 0-indexed attempt; `attemptsLeft = maxRetries - attempt` counts the
loop iterations still to come, so `attemptsLeft = 0` exactly on the final
iteration (`attempt === maxRetries`), where the source throws regardless of
retryability.  The result carries, besides the outcome (`Except` failure =
thrown `StreamFlowError`), the number of invocations of `operation` performed
and the list of back-off delays slept, for stating the counting claims. -/
def withRetryGo (now : Nat) (operation : Nat → Except RawInput α)
    (cfg : RetryConfig) :
    (attempt : Nat) → (attemptsLeft : Nat) →
      Except StreamFlowError α × Nat × List Nat
  | attempt, 0 =>
    match operation attempt with
    | .ok v => (.ok v, 1, [])
    | .error e =>
      -- last attempt: `!lastError.retryable || attempt === maxRetries` is true
      (.error (createStreamFlowError now e
          [("attempt", .num attempt), ("maxRetries", .num cfg.maxRetries)]),
        1, [])
  | attempt, attemptsLeft + 1 =>
    match operation attempt with
    | .ok v => (.ok v, 1, [])
    | .error e =>
      let lastError := createStreamFlowError now e
        [("attempt", .num attempt), ("maxRetries", .num cfg.maxRetries)]
      if !lastError.retryable then
        (.error lastError, 1, [])
      else
        let delay := retryDelay cfg attempt
        let rest := withRetryGo now operation cfg (attempt + 1) attemptsLeft
        (rest.1, rest.2.1 + 1, delay :: rest.2.2)

/-- `withRetry(operation, config)` from `types/errors.ts`: merges the partial
config with the defaults and runs attempts `0..maxRetries` inclusive. -/
def withRetry (now : Nat) (operation : Nat → Except RawInput α)
    (config : PartialRetryConfig) :
    Except StreamFlowError α × Nat × List Nat :=
  let cfg := mergeRetryConfig config
  withRetryGo now operation cfg 0 cfg.maxRetries

/-- The `{ data, error }` pair returned by `handleAsyncOperation` /
`handleAsyncOperationWithRetry` in `lib/error-handler.ts`
(`Promise<{ data: T | null; error: StreamFlowError | null }>`). -/
structure AsyncOpResult (α : Type) where
  data : Option α
  error : Option StreamFlowError
deriving DecidableEq, Repr

/-- "Exactly one of `{data, error}` is set" on an operation-wrapper result
(`null` being the absence marker). -/
def exactlyOneSet (r : AsyncOpResult α) : Bool :=
  (r.data.isSome && !r.error.isSome) || (!r.data.isSome && r.error.isSome)

/-- The context `{...context, operation: operationName, errorId: createErrorId()}`
stamped into a wrapper-classified failure. -/
def wrapperCtx (context : Ctx) (operationName errorId : String) : Ctx :=
  jsSet (jsSet context ("operation") (.str operationName))
    ("errorId") (.str errorId)

/-- `handleAsyncOperation(operation, operationName, context)` from
`lib/error-handler.ts`, at a non-nullable instantiation of the generic `T`:
on success returns `{ data, error: null }`, on a thrown failure classifies it
(stamping operation name and diagnostic id) and returns
`{ data: null, error }`.  `errorId` is the fresh id from `createErrorId()`. -/
def handleAsyncOperation (now : Nat) (errorId : String)
    (operation : Except RawInput α) (operationName : String) (context : Ctx) :
    AsyncOpResult α :=
  match operation with
  | .ok data => { data := some data, error := none }
  | .error e =>
    { data := none,
      error := some (createStreamFlowError now e
        (wrapperCtx context operationName errorId)) }

/-- `handleAsyncOperation` at a nullable instantiation `T = U | null` of the
generic parameter (as used by `getAirdropDetails` and
`getUserAirdropLeafData`, whose operations resolve with `null` for legitimate
absence).  The TypeScript result field `data: T | null` collapses the two
nulls, so the embedded field is `Option α` and a success value `none` is
stored as-is. -/
def handleAsyncOperationNullable (now : Nat) (errorId : String)
    (operation : Except RawInput (Option α)) (operationName : String)
    (context : Ctx) : AsyncOpResult α :=
  match operation with
  | .ok data => { data := data, error := none }
  | .error e =>
    { data := none,
      error := some (createStreamFlowError now e
        (wrapperCtx context operationName errorId)) }

/-- `handleAsyncOperationWithRetry(operation, operationName, context,
retryConfig)` from `lib/error-handler.ts`, non-nullable instantiation: runs
the operation through `withRetry`; a failure escaping the retry loop is
already a `StreamFlowError` (the `instanceof` branch), so it is returned
unchanged as the `error` field. -/
def handleAsyncOperationWithRetry (now : Nat) (errorId : String)
    (operation : Nat → Except RawInput α) (operationName : String)
    (context : Ctx) (retryConfig : PartialRetryConfig) : AsyncOpResult α :=
  match (withRetry now operation retryConfig).1 with
  | .ok data => { data := some data, error := none }
  | .error e => { data := none, error := some e }

/-- `handleAsyncOperationWithRetry` at a nullable instantiation `T = U | null`
(union collapse as in `handleAsyncOperationNullable`). -/
def handleAsyncOperationWithRetryNullable (now : Nat) (errorId : String)
    (operation : Nat → Except RawInput (Option α)) (operationName : String)
    (context : Ctx) (retryConfig : PartialRetryConfig) : AsyncOpResult α :=
  match (withRetry now operation retryConfig).1 with
  | .ok data => { data := data, error := none }
  | .error e => { data := none, error := some e }

/-- `validateRequired(value, fieldName, context)` from `lib/error-handler.ts`:
throws `MISSING_REQUIRED_FIELD` on `null`/`undefined`, else passes the value
through. -/
def validateRequired (now : Nat) (value : Option α) (fieldName : String)
    (context : Ctx) : Except RawInput α :=
  match value with
  | none =>
    .error (.classified
      { code := .MISSING_REQUIRED_FIELD,
        message := "Required field " ++ fieldName ++ " is missing",
        context := jsSet context ("fieldName") (.str fieldName),
        timestamp := now, retryable := false })
  | some v => .ok v

/-- The raw claim record (`StreamflowClaimStatus` shape) returned by
`client.getClaim` in `lib/streamflow.ts`.  Each field is `Option`: `none`
stands for an absent field or a value that is not a `BN` / not a boolean
(the `instanceof BN` / `typeof 'boolean'` checks of the validator fail on
`none`). -/
structure RawClaim where
  unlockedAmount : Option Int
  lockedAmount : Option Int
  lockedAmountWithdrawn : Option Int
  closed : Option Bool
deriving DecidableEq, Repr

/-- `isStreamflowClaimStatus(value)` from `lib/streamflow.ts`: requires
`unlockedAmount` and `lockedAmount` to be `BN`s and `closed` to be a boolean.
(`lockedAmountWithdrawn` is not checked.) -/
def isStreamflowClaimStatus (c : RawClaim) : Bool :=
  c.unlockedAmount.isSome && c.lockedAmount.isSome && c.closed.isSome

/-- `UserAirdropLeafData` from `lib/streamflow.ts`.  `claimedAmount` is
`Option Int` because the source copies `lockedAmountWithdrawn` unvalidated,
so it may be the absent marker. -/
structure UserAirdropLeafData where
  totalAllocation : Int
  claimedAmount : Option Int
  isClaimed : Bool
deriving DecidableEq, Repr

/-- The leaf-data computation of the single-item path
(`lib/streamflow.ts:379-383`): only evaluated after the
`isStreamflowClaimStatus` guard, so the `getD` defaults for the validated
fields are never the values used. -/
def singleLeafOfClaim (c : RawClaim) : UserAirdropLeafData :=
  { totalAllocation := c.unlockedAmount.getD 0 + c.lockedAmount.getD 0,
    claimedAmount := c.lockedAmountWithdrawn,
    isClaimed := c.closed.getD false }

/-- The leaf-data computation of the batch path
(`lib/streamflow.ts:474-478`), likewise guarded by
`isStreamflowClaimStatus`. -/
def batchLeafOfClaim (c : RawClaim) : UserAirdropLeafData :=
  { totalAllocation := c.unlockedAmount.getD 0 + c.lockedAmount.getD 0,
    claimedAmount := c.lockedAmountWithdrawn,
    isClaimed := c.closed.getD false }

/-- The external SDK collaborator as an oracle environment:
`validKey k` says whether `new PublicKey(k)` succeeds; `derivePda` is the
deterministic `findProgramAddressSync` -based claim-status address
derivation for a (distributor, user) pair; `getClaim pda` is the outcome of
`client.getClaim(pda)` — it may throw (`.error`), return null (`.ok none`),
or return a raw claim record. -/
structure ChainEnv where
  validKey : String → Bool
  derivePda : String → String → String
  getClaim : String → Except RawInput (Option RawClaim)

/-- `validatePublicKey(keyString, fieldName)` from `lib/streamflow.ts`:
throws a non-retryable `INVALID_PUBLIC_KEY` `StreamFlowError` when the key
does not parse.  (The caught constructor error in `originalError` is modelled
opaquely.) -/
def validatePublicKey (now : Nat) (env : ChainEnv)
    (keyString fieldName : String) : Except RawInput String :=
  if env.validKey keyString then .ok keyString
  else
    .error (.classified
      { code := .INVALID_PUBLIC_KEY,
        message := "Invalid " ++ fieldName ++ ": " ++ keyString,
        context := [("fieldName", .str fieldName),
          ("keyString", .str keyString), ("originalError", .rawOther)],
        timestamp := now, retryable := false })

/-- The inner `operation` of `getUserAirdropLeafData`
(`lib/streamflow.ts:344-393`): validates inputs, derives the claim-status
PDA, fetches the claim record, and returns `null` when the record is absent
or fails shape validation. -/
def getUserAirdropLeafData_op (now : Nat) (env : ChainEnv)
    (distributorPublicKeyString userWalletPublicKeyString : String) :
    Except RawInput (Option UserAirdropLeafData) := do
  let _ ← validateRequired now (some distributorPublicKeyString)
    ("distributorPublicKeyString") []
  let _ ← validateRequired now (some userWalletPublicKeyString)
    ("userWalletPublicKeyString") []
  let distributorPk ← validatePublicKey now env distributorPublicKeyString
    ("distributor publicKey")
  let userPk ← validatePublicKey now env userWalletPublicKeyString
    ("user wallet publicKey")
  let claimStatusPda := env.derivePda distributorPk userPk
  let claimStatus ← env.getClaim claimStatusPda
  match claimStatus with
  | none => .ok none
  | some c =>
    if !(isStreamflowClaimStatus c) then .ok none
    else .ok (some (singleLeafOfClaim c))

/-- The `||` chain of substrings that `getUserAirdropLeafData` treats as
legitimate absence when found in a classified failure's lowercased message
(`lib/streamflow.ts:403-407`). -/
def isAbsenceMessage (m : String) : Bool :=
  strContains m ("account does not exist")
    || strContains m ("leaf not found")
    || strContains m ("recipient not found")
    || strContains m ("invalid account data")

/-- `getUserAirdropLeafData(distributor, user)` from `lib/streamflow.ts`:
wraps the operation in `handleAsyncOperation` (nullable instantiation) and
converts the known not-eligible failures into the absent result instead of
an error. -/
def getUserAirdropLeafData (now : Nat) (errorId : String) (env : ChainEnv)
    (distributorPublicKeyString userWalletPublicKeyString : String) :
    Except StreamFlowError (Option UserAirdropLeafData) :=
  let r := handleAsyncOperationNullable now errorId
    (getUserAirdropLeafData_op now env distributorPublicKeyString
      userWalletPublicKeyString)
    ("getUserAirdropLeafData")
    [("distributorPublicKeyString", .str distributorPublicKeyString),
     ("userWalletPublicKeyString", .str userWalletPublicKeyString)]
  match r.error with
  | some error =>
    if isAbsenceMessage (strToLower error.message) then .ok none
    else .error error
  | none => .ok r.data

/-- `BatchUserAirdropData` from `lib/streamflow.ts`: a string-keyed object
mapping each airdrop public key to the user's leaf data or `null`.  Embedded
as a partial map; `none` means the key is not present in the object at all,
`some none` means the key is present and maps to `null`. -/
abbrev BatchUserAirdropData : Type := String → Option (Option UserAirdropLeafData)

/-- The empty object `{}`. -/
def emptyBatchData : BatchUserAirdropData := fun _ => none

/-- `result[publicKey] = leafData`: pointwise update of the object. -/
def jsObjSet (m : BatchUserAirdropData) (k : String)
    (v : Option UserAirdropLeafData) : BatchUserAirdropData :=
  fun q => if q = k then some v else m q

/-- The PDA-generation pass of the batch fetch
(`lib/streamflow.ts:437-456`): for each key, `some pda` on success, `none`
when `validatePublicKey` (or the derivation) threw — the catch stores an
error object, used downstream only as "no PDA for this key". -/
def batchClaimStatusPdas (env : ChainEnv) (airdropPublicKeys : List String)
    (userPk : String) : List (String × Option String) :=
  airdropPublicKeys.map (fun publicKey =>
    if env.validKey publicKey then
      (publicKey, some (env.derivePda publicKey userPk))
    else (publicKey, none))

/-- The fan-out pass of the batch fetch (`lib/streamflow.ts:459-491`): each
per-key lookup is individually guarded, and every failure mode (no PDA,
thrown lookup, absent record, invalid record shape) degrades that key's
entry to `null`. -/
def batchClaimResults (env : ChainEnv)
    (pdas : List (String × Option String)) :
    List (String × Option UserAirdropLeafData) :=
  pdas.map (fun pair =>
    match pair.2 with
    | none => (pair.1, none)
    | some claimStatusPda =>
      match env.getClaim claimStatusPda with
      | .error _ => (pair.1, none)
      | .ok none => (pair.1, none)
      | .ok (some c) =>
        if !(isStreamflowClaimStatus c) then (pair.1, none)
        else (pair.1, some (batchLeafOfClaim c)))

/-- The inner `operation` of `getBatchUserAirdropLeafData`
(`lib/streamflow.ts:420-506`). -/
def getBatchUserAirdropLeafData_op (now : Nat) (env : ChainEnv)
    (airdropPublicKeys : List String) (userWalletPublicKeyString : String) :
    Except RawInput BatchUserAirdropData := do
  let _ ← validateRequired now (some airdropPublicKeys)
    ("airdropPublicKeys") []
  let _ ← validateRequired now (some userWalletPublicKeyString)
    ("userWalletPublicKeyString") []
  if airdropPublicKeys.isEmpty then
    .ok emptyBatchData
  else do
    let userPk ← validatePublicKey now env userWalletPublicKeyString
      ("user wallet publicKey")
    let claimStatusPdas := batchClaimStatusPdas env airdropPublicKeys userPk
    let claimResults := batchClaimResults env claimStatusPdas
    -- claimResults.forEach(({publicKey, leafData}) => result[publicKey] = leafData)
    .ok (claimResults.foldl (fun m pair => jsObjSet m pair.1 pair.2)
      emptyBatchData)

/-- `getBatchUserAirdropLeafData(airdropPublicKeys, user)` from
`lib/streamflow.ts`: the operation wrapped in `handleAsyncOperation`
(non-nullable instantiation: the object is never null); any wrapper error is
re-thrown, otherwise `data!` is returned. -/
def getBatchUserAirdropLeafData (now : Nat) (errorId : String)
    (env : ChainEnv) (airdropPublicKeys : List String)
    (userWalletPublicKeyString : String) :
    Except StreamFlowError BatchUserAirdropData :=
  let r := handleAsyncOperation now errorId
    (getBatchUserAirdropLeafData_op now env airdropPublicKeys
      userWalletPublicKeyString)
    ("getBatchUserAirdropLeafData")
    [("airdropPublicKeys", .strList airdropPublicKeys),
     ("userWalletPublicKeyString", .str userWalletPublicKeyString)]
  match r.error with
  | some error => .error error
  | none => .ok (r.data.getD emptyBatchData)

/-- The `WALLET_NOT_CONNECTED` error thrown by the `useBatchUserAirdropData`
hook's query function when the wallet key is missing
(`useBatchUserAirdropData.ts:21-27`); the `StreamFlowError` constructor
default makes it non-retryable. -/
def hookWalletNotConnectedError (now : Nat) (airdropCount : Nat) :
    StreamFlowError :=
  { code := .WALLET_NOT_CONNECTED,
    message := "User wallet public key is required for fetching airdrop data",
    context := [("airdropCount", .num airdropCount)],
    timestamp := now, retryable := false }

/-- The `queryFn` of the `useBatchUserAirdropData` hook: guards the wallet
key (JavaScript falsiness: `null` or the empty string), returns the empty
object for an empty key array, and otherwise delegates to
`getBatchUserAirdropLeafData`, re-classifying any failure through
`createQueryErrorHandler` (a pass-through for the already classified
error). -/
def useBatchUserAirdropData_queryFn (now : Nat) (errorId queryErrorId : String)
    (env : ChainEnv) (airdropPublicKeys : List String)
    (userWalletPublicKey : Option String) :
    Except StreamFlowError BatchUserAirdropData :=
  -- `if (!userWalletPublicKey) throw ...`
  if (match userWalletPublicKey with
      | none => true
      | some s => s = "") then
    .error (hookWalletNotConnectedError now airdropPublicKeys.length)
  else
    -- `if (!Array.isArray(...) || length === 0) return {}`
    if airdropPublicKeys.isEmpty then .ok emptyBatchData
    else
      match getBatchUserAirdropLeafData now errorId env airdropPublicKeys
        (userWalletPublicKey.getD "") with
      | .ok m => .ok m
      | .error e =>
        .error (createStreamFlowError now (.classified e)
          [("query", .str "batchUserAirdropData"),
           ("errorId", .str queryErrorId)])

/-- The raw distributor account fields that `getAirdrops` reads
(`MerkleDistributorFields` plus the optional extended fields).  Numeric
fields are `BN`-or-absent; `mint` is its base58 string or absent. -/
structure RawAccount where
  version : Option Int
  mint : Option String
  startTs : Option Int
  endTs : Option Int
  maxNumNodes : Option Int
  numNodesClaimed : Option Int
  maxTotalClaim : Option Int
  totalAmountClaimed : Option Int
  decimals : Option Int
  name : Option String
deriving DecidableEq, Repr

/-- A raw record from `client.searchDistributors`: `publicKey` (base58, or
absent/falsy) and the nested `account` object (or absent). -/
structure RawDistributor where
  publicKey : Option String
  account : Option RawAccount
deriving DecidableEq, Repr

/-- `isValidDistributor(value)` from `lib/streamflow.ts:94-120`: requires a
truthy `publicKey`, a truthy object `account`, and a non-null, non-undefined
`account.version`. -/
def isValidDistributor (d : RawDistributor) : Bool :=
  d.publicKey.isSome &&
    (match d.account with
     | some account => account.version.isSome
     | none => false)

/-- `AirdropInfo` from `lib/streamflow.ts`. -/
structure AirdropInfo where
  publicKey : String
  version : Int
  name : String
  isVested : Bool
  maxNumNodes : Int
  numNodesClaimed : Int
  totalAmount : Int
  claimedAmount : Int
  decimals : Int
  mint : String
deriving DecidableEq, Repr

/-- `transformDistributorToAirdropInfo(distributor, index)` from
`lib/streamflow.ts:179-228`: reads the account fields with their source
fall-backs (`?? new BN(0)`, `"Unknown"` mint, generated name, vesting from
`startTs !== endTs`); the catch-all `return null` corresponds to the
missing-field cases. -/
def transformDistributorToAirdropInfo (distributor : RawDistributor) :
    Option AirdropInfo :=
  match distributor.publicKey, distributor.account with
  | some pk, some account =>
    let versionNumber := (account.version.getD 0)
    let mintAddress := account.mint.getD "Unknown"
    let calculatedIsVested :=
      match account.startTs, account.endTs with
      | some s, some e => decide (¬ (s = e))
      | _, _ => false
    let decimals := account.decimals.getD 0
    let name :=
      match account.name with
      | some n =>
        -- `(extendedAccount.name as string) || fallback`: "" is falsy
        if n = "" then "Airdrop " ++ String.mk (pk.data.take 6) ++ "..."
        else n
      | none => "Airdrop " ++ String.mk (pk.data.take 6) ++ "..."
    some
      { publicKey := pk,
        version := versionNumber,
        name := name,
        isVested := calculatedIsVested,
        maxNumNodes := account.maxNumNodes.getD 0,
        numNodesClaimed := account.numNodesClaimed.getD 0,
        totalAmount := account.maxTotalClaim.getD 0,
        claimedAmount := account.totalAmountClaimed.getD 0,
        decimals := decimals,
        mint := mintAddress }
  | _, _ => none

/-- The ordering induced by the comparator `(a, b) => b.version - a.version`
of `airdropInfos.sort`: descending by version. -/
def versionDesc (a b : AirdropInfo) : Prop :=
  b.version ≤ a.version

instance : DecidableRel versionDesc :=
  fun a b => Int.decLe b.version a.version

instance : IsTotal AirdropInfo versionDesc :=
  ⟨fun a b => le_total b.version a.version⟩

instance : IsTrans AirdropInfo versionDesc :=
  ⟨fun _ _ _ hab hbc => le_trans hbc hab⟩

/-- The `airdropInfos` list of `getAirdrops`: each raw record is dropped
(`null`, filtered out) if it fails `isValidDistributor`, else transformed. -/
def validSummaries (results : List RawDistributor) : List AirdropInfo :=
  results.filterMap (fun distributor =>
    if !(isValidDistributor distributor) then none
    else transformDistributorToAirdropInfo distributor)

/-- The body of the `getAirdrops` operation after
`await client.searchDistributors` (`lib/streamflow.ts:244-279`): a null
search result yields `[]`; malformed records are dropped (logged, not
surfaced); the valid ones are transformed, sorted by descending version, and
truncated to `limit` when `limit` is truthy, positive, and smaller than the
result count. -/
def processSearchResults (searchResults : Option (List RawDistributor))
    (limit : Option Int) : List AirdropInfo :=
  match searchResults with
  | none => []
  | some results =>
    let airdropInfos := validSummaries results
    -- `airdropInfos.sort((a, b) => b.version - a.version)`: a stable sort
    -- by descending version, modelled by insertion sort (stable)
    let sorted := List.insertionSort versionDesc airdropInfos
    -- `limit && limit > 0 && limit < airdropInfos.length`
    match limit with
    | some l =>
      if l != 0 && decide (0 < l) && decide (l < (sorted.length : Int)) then
        sorted.take l.toNat
      else sorted
    | none => sorted

/-- `getAirdrops(mintFilter, admin, limit)` from `lib/streamflow.ts`:
the operation (search + processing) run through
`handleAsyncOperationWithRetry` with `{maxRetries: 2, baseDelay: 1000}`;
a wrapper error is re-thrown, otherwise `data!` is returned.  `search n`
is the outcome of `client.searchDistributors` on attempt `n`. -/
def getAirdrops (now : Nat) (errorId : String)
    (search : Nat → Except RawInput (Option (List RawDistributor)))
    (mintFilter admin : Option String) (limit : Option Int) :
    Except StreamFlowError (List AirdropInfo) :=
  let r := handleAsyncOperationWithRetry now errorId
    (fun attempt =>
      match search attempt with
      | .error e => .error e
      | .ok searchResults => .ok (processSearchResults searchResults limit))
    ("getAirdrops")
    [("mintFilter", .strOpt mintFilter), ("admin", .strOpt admin),
     ("limit", .numOpt limit)]
    { maxRetries := some 2, baseDelay := some 1000,
      maxDelay := none, exponentialBackoff := none }
  match r.error with
  | some error => .error error
  | none => .ok (r.data.getD [])

/-- The retryability that classification assigns to a raw failure.  (The
branch taken in `createStreamFlowError` depends only on the failure itself,
so this is independent of the clock and context arguments; see
`createStreamFlowError_retryable_eq`.) -/
def isRetryableRaw (e : RawInput) : Bool :=
  (createStreamFlowError 0 e []).retryable

/-- The message that classification assigns to a raw failure (independent of
clock and context; see `createStreamFlowError_message_eq`). -/
def classifiedMessage (e : RawInput) : String :=
  (createStreamFlowError 0 e []).message

/-- The per-identifier outcome of the batch fan-out, as a function of the
environment: the value the batch stores for key `k` given user key
`userPk`.  Derived view of `batchClaimResults ∘ batchClaimStatusPdas`;
see `batchClaimResults_eq_map`. -/
def batchOutcome (env : ChainEnv) (userPk k : String) :
    Option UserAirdropLeafData :=
  if env.validKey k then
    match env.getClaim (env.derivePda k userPk) with
    | .error _ => none
    | .ok none => none
    | .ok (some c) =>
      if !(isStreamflowClaimStatus c) then none
      else some (batchLeafOfClaim c)
  else none

/-!  ## Concrete instances used for witnesses and counterexamples  -/

/-- An environment where every key parses and every claim-record lookup
returns null (the account does not exist — legitimate absence). -/
def envClaimAbsent : ChainEnv :=
  { validKey := fun _ => true,
    derivePda := fun _ _ => "pda",
    getClaim := fun _ => .ok none }

/-- An environment with deterministic per-identifier outcomes where the
lookup for the PDA of campaign "B" throws a network failure, "A" and "C"
resolve to claim records, and every key parses.  (PDAs are tagged with the
campaign identifier.) -/
def envBatchMixed : ChainEnv :=
  { validKey := fun _ => true,
    derivePda := fun dist _ => "pda-" ++ dist,
    getClaim := fun pda =>
      if pda = "pda-B" then .error (.errorObj "network unreachable")
      else if pda = "pda-A" then
        .ok (some { unlockedAmount := some 10, lockedAmount := some 5,
                    lockedAmountWithdrawn := some 2, closed := some false })
      else
        .ok (some { unlockedAmount := some 1, lockedAmount := some 0,
                    lockedAmountWithdrawn := some 0, closed := some true }) }

/-- A well-formed claim record used to witness the leaf-data computation. -/
def rawClaimEx : RawClaim :=
  { unlockedAmount := some 10, lockedAmount := some 5,
    lockedAmountWithdrawn := some 2, closed := some false }

/-- A valid raw distributor record (version 1). -/
def rawDistEx1 : RawDistributor :=
  { publicKey := some "PK1",
    account := some
      { version := some 1, mint := none, startTs := none, endTs := none,
        maxNumNodes := none, numNodesClaimed := none, maxTotalClaim := none,
        totalAmountClaimed := none, decimals := none, name := some "A1" } }

/-- A valid raw distributor record (version 2). -/
def rawDistEx2 : RawDistributor :=
  { publicKey := some "PK2",
    account := some
      { version := some 2, mint := none, startTs := none, endTs := none,
        maxNumNodes := none, numNodesClaimed := none, maxTotalClaim := none,
        totalAmountClaimed := none, decimals := none, name := some "A2" } }

/-- A malformed raw distributor record (missing `account.version`). -/
def rawDistBad : RawDistributor :=
  { publicKey := some "PKX",
    account := some
      { version := none, mint := none, startTs := none, endTs := none,
        maxNumNodes := none, numNodesClaimed := none, maxTotalClaim := none,
        totalAmountClaimed := none, decimals := none, name := none } }

/-- A search oracle that succeeds on every attempt with two valid records
(versions 1 and 2, in ascending order) and one malformed record. -/
def searchDistEx : Nat → Except RawInput (Option (List RawDistributor)) :=
  fun _ => .ok (some [rawDistEx1, rawDistBad, rawDistEx2])

/-- The campaign summary `getAirdrops` produces for `rawDistEx1`. -/
def airdropInfoEx1 : AirdropInfo :=
  { publicKey := "PK1", version := 1, name := "A1", isVested := false,
    maxNumNodes := 0, numNodesClaimed := 0, totalAmount := 0,
    claimedAmount := 0, decimals := 0, mint := "Unknown" }

/-- The campaign summary `getAirdrops` produces for `rawDistEx2`. -/
def airdropInfoEx2 : AirdropInfo :=
  { publicKey := "PK2", version := 2, name := "A2", isVested := false,
    maxNumNodes := 0, numNodesClaimed := 0, totalAmount := 0,
    claimedAmount := 0, decimals := 0, mint := "Unknown" }

/-!  ## Helper lemmas  -/

lemma createStreamFlowError_retryable_eq (now : Nat) (e : RawInput)
    (ctx : Ctx) :
    (createStreamFlowError now e ctx).retryable = isRetryableRaw e := by
  cases e <;>
    simp only [createStreamFlowError, isRetryableRaw, NetworkError,
      NotFoundError] <;>
    split_ifs <;> rfl

lemma createStreamFlowError_message_eq (now : Nat) (e : RawInput)
    (ctx : Ctx) :
    (createStreamFlowError now e ctx).message = classifiedMessage e := by
  cases e <;>
    simp only [createStreamFlowError, classifiedMessage, NetworkError,
      NotFoundError] <;>
    split_ifs <;> rfl

lemma jsSet_mem_self (ctx : Ctx) (k : String) (v : CtxVal) :
    (k, v) ∈ jsSet ctx k v := by
  unfold jsSet
  split
  case isTrue h =>
    rw [List.any_eq_true] at h
    obtain ⟨p, hp, hpk⟩ := h
    rw [List.mem_map]
    refine ⟨p, hp, ?_⟩
    simp only [decide_eq_true_eq] at hpk
    simp [hpk]
  case isFalse h =>
    simp

lemma withRetryGo_ok_inv (now : Nat) (op : Nat → Except RawInput α)
    (cfg : RetryConfig) (v : α) :
    ∀ left a, (withRetryGo now op cfg a left).1 = .ok v →
      ∃ i, op i = .ok v := by
  intro left
  induction left with
  | zero =>
    intro a h
    unfold withRetryGo at h
    revert h
    cases hop : op a <;> simp_all
    exact fun h => ⟨a, by rw [hop, h]⟩
  | succ n ih =>
    intro a h
    unfold withRetryGo at h
    revert h
    cases hop : op a with
    | ok w =>
      intro h
      simp only [Except.ok.injEq] at h
      exact ⟨a, by rw [hop, h]⟩
    | error e =>
      simp only
      split
      · simp
      · intro h
        exact ih (a + 1) h

lemma withRetryGo_ok_head (now : Nat) (op : Nat → Except RawInput α)
    (cfg : RetryConfig) (v : α) (left a : Nat) (h : op a = .ok v) :
    withRetryGo now op cfg a left = (.ok v, 1, []) := by
  cases left <;> unfold withRetryGo <;> rw [h]

lemma withRetryGo_nonretryable_head (now : Nat) (op : Nat → Except RawInput α)
    (cfg : RetryConfig) (e : RawInput) (a left : Nat)
    (hop : op a = .error e) (hnr : isRetryableRaw e = false) :
    withRetryGo now op cfg a left =
      (.error (createStreamFlowError now e
        [("attempt", .num a), ("maxRetries", .num cfg.maxRetries)]), 1, []) := by
  cases left with
  | zero => unfold withRetryGo; rw [hop]
  | succ n =>
    unfold withRetryGo
    rw [hop]
    simp only [createStreamFlowError_retryable_eq, hnr, Bool.not_false,
      if_pos]

lemma withRetryGo_allFail (now : Nat) (op : Nat → Except RawInput α)
    (cfg : RetryConfig) (f : Nat → RawInput)
    (hop : ∀ n, op n = .error (f n))
    (hr : ∀ n, isRetryableRaw (f n) = true) :
    ∀ left a, withRetryGo now op cfg a left =
      (.error (createStreamFlowError now (f (a + left))
        [("attempt", .num (a + left)), ("maxRetries", .num cfg.maxRetries)]),
       left + 1,
       (List.range' a left).map (retryDelay cfg)) := by
  intro left
  induction left with
  | zero =>
    intro a
    unfold withRetryGo
    rw [hop a]
    simp
  | succ n ih =>
    intro a
    unfold withRetryGo
    rw [hop a]
    simp only [createStreamFlowError_retryable_eq, hr a, Bool.not_true,
      Bool.false_eq_true, if_false, ih (a + 1)]
    have harith : a + 1 + n = a + (n + 1) := by omega
    rw [harith, List.range'_succ]
    rfl

/-- **C6.** `classify` (`createStreamFlowError`) is idempotent: classifying
an already classified error returns it unchanged — same code, message,
context, timestamp and retryable flag — so classifying twice equals
classifying once, for any raw input, clocks and contexts. -/
theorem classify_idempotent (now nowTwo : Nat) (x : RawInput) (c cTwo : Ctx) :
    createStreamFlowError nowTwo
        (.classified (createStreamFlowError now x c)) cTwo
      = createStreamFlowError now x c := rfl

/-- **C2.** For a generic `Error` with message `msg`, classification
lower-cases the message and applies the ordered substring rules:
network/fetch → `NETWORK_ERROR` retryable; then timeout →
`CONNECTION_TIMEOUT` retryable; then account-missing → `ACCOUNT_NOT_FOUND`
non-retryable; then invalid key/address → `INVALID_PUBLIC_KEY`
non-retryable; then invalid account data → `INVALID_ACCOUNT_DATA`
non-retryable; otherwise `UNKNOWN_ERROR` retryable with the original
failure preserved under `originalError` in the context. -/
theorem classify_generic_error_rules (now : Nat) (msg : String) (ctx : Ctx) :
    ((strContains (strToLower msg) ("network")
        || strContains (strToLower msg) ("fetch")) = true →
      (createStreamFlowError now (.errorObj msg) ctx).code = .NETWORK_ERROR ∧
      (createStreamFlowError now (.errorObj msg) ctx).retryable = true) ∧
    ((strContains (strToLower msg) ("network")
        || strContains (strToLower msg) ("fetch")) = false →
      strContains (strToLower msg) ("timeout") = true →
      (createStreamFlowError now (.errorObj msg) ctx).code
          = .CONNECTION_TIMEOUT ∧
      (createStreamFlowError now (.errorObj msg) ctx).retryable = true) ∧
    ((strContains (strToLower msg) ("network")
        || strContains (strToLower msg) ("fetch")) = false →
      strContains (strToLower msg) ("timeout") = false →
      (strContains (strToLower msg) ("account does not exist")
        || strContains (strToLower msg) ("account not found")) = true →
      (createStreamFlowError now (.errorObj msg) ctx).code
          = .ACCOUNT_NOT_FOUND ∧
      (createStreamFlowError now (.errorObj msg) ctx).retryable = false) ∧
    ((strContains (strToLower msg) ("network")
        || strContains (strToLower msg) ("fetch")) = false →
      strContains (strToLower msg) ("timeout") = false →
      (strContains (strToLower msg) ("account does not exist")
        || strContains (strToLower msg) ("account not found")) = false →
      (strContains (strToLower msg) ("invalid public key")
        || strContains (strToLower msg) ("invalid address")) = true →
      (createStreamFlowError now (.errorObj msg) ctx).code
          = .INVALID_PUBLIC_KEY ∧
      (createStreamFlowError now (.errorObj msg) ctx).retryable = false) ∧
    ((strContains (strToLower msg) ("network")
        || strContains (strToLower msg) ("fetch")) = false →
      strContains (strToLower msg) ("timeout") = false →
      (strContains (strToLower msg) ("account does not exist")
        || strContains (strToLower msg) ("account not found")) = false →
      (strContains (strToLower msg) ("invalid public key")
        || strContains (strToLower msg) ("invalid address")) = false →
      strContains (strToLower msg) ("invalid account data") = true →
      (createStreamFlowError now (.errorObj msg) ctx).code
          = .INVALID_ACCOUNT_DATA ∧
      (createStreamFlowError now (.errorObj msg) ctx).retryable = false) ∧
    ((strContains (strToLower msg) ("network")
        || strContains (strToLower msg) ("fetch")) = false →
      strContains (strToLower msg) ("timeout") = false →
      (strContains (strToLower msg) ("account does not exist")
        || strContains (strToLower msg) ("account not found")) = false →
      (strContains (strToLower msg) ("invalid public key")
        || strContains (strToLower msg) ("invalid address")) = false →
      strContains (strToLower msg) ("invalid account data") = false →
      (createStreamFlowError now (.errorObj msg) ctx).code = .UNKNOWN_ERROR ∧
      (createStreamFlowError now (.errorObj msg) ctx).retryable = true ∧
      ("originalError", CtxVal.rawErrorObj msg)
        ∈ (createStreamFlowError now (.errorObj msg) ctx).context) := by
  refine ⟨?_, ?_, ?_, ?_, ?_, ?_⟩
  · intro h1
    simp [createStreamFlowError, NetworkError, h1]
  · intro h1 h2
    simp [createStreamFlowError, h1, h2]
  · intro h1 h2 h3
    simp [createStreamFlowError, NotFoundError, h1, h2, h3]
  · intro h1 h2 h3 h4
    simp [createStreamFlowError, h1, h2, h3, h4]
  · intro h1 h2 h3 h4 h5
    simp [createStreamFlowError, h1, h2, h3, h4, h5]
  · intro h1 h2 h3 h4 h5
    simp only [createStreamFlowError, h1, h2, h3, h4, h5, Bool.false_eq_true,
      if_false]
    exact ⟨trivial, trivial, jsSet_mem_self ctx _ _⟩

/-- Witness for C2 at concrete inputs: a "Network request failed" message is
classified as a retryable network error, and an unmatched message as a
retryable unknown error preserving the original failure in context. -/
theorem classify_generic_error_rules_witness :
    ((createStreamFlowError 7 (.errorObj "Network request failed") []).code
        = .NETWORK_ERROR ∧
      (createStreamFlowError 7
        (.errorObj "Network request failed") []).retryable = true) ∧
    ((createStreamFlowError 7 (.errorObj "odd failure") []).code
        = .UNKNOWN_ERROR ∧
      (createStreamFlowError 7 (.errorObj "odd failure") []).retryable = true ∧
      ("originalError", CtxVal.rawErrorObj "odd failure")
        ∈ (createStreamFlowError 7 (.errorObj "odd failure") []).context) :=
  ⟨(classify_generic_error_rules 7 "Network request failed" []).1 (by decide),
   (classify_generic_error_rules 7 "odd failure" []).2.2.2.2.2
     (by decide) (by decide) (by decide) (by decide) (by decide)⟩

/-- **C7.** When the first attempt fails with a non-retryable failure,
`withRetry` performs exactly one invocation, sleeps no back-off delay, and
immediately throws the classified error (carrying attempt index 0 and the
configured `maxRetries` in context) — regardless of the configured
`maxRetries`. -/
theorem withRetry_nonretryable_single_attempt (now : Nat) {α : Type}
    (op : Nat → Except RawInput α) (config : PartialRetryConfig)
    (e : RawInput) (hop : op 0 = .error e)
    (hnr : isRetryableRaw e = false) :
    withRetry now op config =
      (.error (createStreamFlowError now e
        [("attempt", .num 0),
         ("maxRetries", .num (mergeRetryConfig config).maxRetries)]),
       1, []) := by
  unfold withRetry
  exact withRetryGo_nonretryable_head now op (mergeRetryConfig config) e 0
    (mergeRetryConfig config).maxRetries hop hnr

/-- Witness for C7: an operation that throws "invalid public key: Q" (a
non-retryable classification) under the default config is invoked once with
no delays. -/
theorem withRetry_nonretryable_single_attempt_witness :
    withRetry 3
        (fun _ => (.error (.errorObj "invalid public key: Q")
          : Except RawInput Unit))
        PartialRetryConfig.empty =
      (.error (createStreamFlowError 3 (.errorObj "invalid public key: Q")
        [("attempt", .num 0), ("maxRetries", .num 3)]), 1, []) := by
  have h := withRetry_nonretryable_single_attempt 3
    (fun _ => (.error (.errorObj "invalid public key: Q")
      : Except RawInput Unit))
    PartialRetryConfig.empty (.errorObj "invalid public key: Q")
    rfl (by decide)
  exact h

/-- **C3.** `withRetry` on an operation that always fails with a retryable
failure attempts indices `0..maxRetries` inclusive: it performs exactly
`maxRetries + 1` invocations, sleeps the delay `retryDelay` (which equals
`min(baseDelay * 2^n, maxDelay)` for 0-indexed attempt `n` when exponential,
else the constant `baseDelay`) between consecutive attempts, and on
exhaustion propagates the last classified error.  With the documented
default config `{maxRetries: 3, baseDelay: 1000, maxDelay: 10000,
exponentialBackoff: true}` this is exactly 4 invocations with delays
1000, 2000, 4000 ms. -/
theorem withRetry_exhaustion (now : Nat) {α : Type}
    (op : Nat → Except RawInput α) (config : PartialRetryConfig)
    (f : Nat → RawInput) (hop : ∀ n, op n = .error (f n))
    (hr : ∀ n, isRetryableRaw (f n) = true) :
    (withRetry now op config =
      (.error (createStreamFlowError now (f (mergeRetryConfig config).maxRetries)
        [("attempt", .num (mergeRetryConfig config).maxRetries),
         ("maxRetries", .num (mergeRetryConfig config).maxRetries)]),
       (mergeRetryConfig config).maxRetries + 1,
       (List.range' 0 (mergeRetryConfig config).maxRetries).map
         (retryDelay (mergeRetryConfig config)))) ∧
    (∀ n, retryDelay (mergeRetryConfig config) n =
      if (mergeRetryConfig config).exponentialBackoff = true then
        min ((mergeRetryConfig config).baseDelay * 2 ^ n)
          (mergeRetryConfig config).maxDelay
      else (mergeRetryConfig config).baseDelay) ∧
    (withRetry now op
        { maxRetries := some 3, baseDelay := some 1000,
          maxDelay := some 10000, exponentialBackoff := some true } =
      (.error (createStreamFlowError now (f 3)
        [("attempt", .num 3), ("maxRetries", .num 3)]),
       4, [1000, 2000, 4000])) := by
  refine ⟨?_, ?_, ?_⟩
  · unfold withRetry
    simpa using withRetryGo_allFail now op (mergeRetryConfig config) f hop hr
      (mergeRetryConfig config).maxRetries 0
  · intro n
    rfl
  · unfold withRetry
    have h := withRetryGo_allFail now op
      (mergeRetryConfig
        { maxRetries := some 3, baseDelay := some 1000,
          maxDelay := some 10000, exponentialBackoff := some true })
      f hop hr 3 0
    exact h

/-- Witness for C3: an operation always throwing "network down" (retryable)
under the explicit default config performs 4 invocations with delays
1000, 2000, 4000 and throws the classified network error of attempt 3. -/
theorem withRetry_exhaustion_witness :
    withRetry 5
        (fun _ => (.error (.errorObj "network down") : Except RawInput Unit))
        { maxRetries := some 3, baseDelay := some 1000,
          maxDelay := some 10000, exponentialBackoff := some true } =
      (.error (createStreamFlowError 5 (.errorObj "network down")
        [("attempt", .num 3), ("maxRetries", .num 3)]),
       4, [1000, 2000, 4000]) :=
  (withRetry_exhaustion 5
    (fun _ => (.error (.errorObj "network down") : Except RawInput Unit))
    { maxRetries := some 3, baseDelay := some 1000,
      maxDelay := some 10000, exponentialBackoff := some true }
    (fun _ => .errorObj "network down") (fun _ => rfl)
    (fun _ => rfl)).2.2

/-- **C4 (amended).** For every outcome through the operation wrappers, the
`error` field is set exactly when the wrapped operation failed, and no
thrown failure escapes (the wrappers are total, returning a result pair in
all cases).  Exactly one of `{data, error}` is set in every case at
non-nullable result types, and at nullable result types whenever the
operation's success value is not the null marker; an operation that
succeeds with null yields both fields absent (see the counterexample). -/
theorem operation_wrapper_exactly_one (now : Nat) {α β : Type}
    (errorId operationName : String) (ctx : Ctx)
    (op0 : Except RawInput β)
    (opR0 : Nat → Except RawInput β) (cfg0 : PartialRetryConfig)
    (op : Except RawInput (Option α)) (h : ¬ (op = .ok none))
    (opR : Nat → Except RawInput (Option α)) (cfg : PartialRetryConfig)
    (hR : ∀ n, ¬ (opR n = .ok none)) :
    exactlyOneSet (handleAsyncOperation now errorId op0 operationName ctx)
        = true ∧
    exactlyOneSet (handleAsyncOperationWithRetry now errorId opR0
        operationName ctx cfg0) = true ∧
    exactlyOneSet (handleAsyncOperationNullable now errorId op
        operationName ctx) = true ∧
    exactlyOneSet (handleAsyncOperationWithRetryNullable now errorId opR
        operationName ctx cfg) = true := by
  refine ⟨?_, ?_, ?_, ?_⟩
  · cases op0 <;> rfl
  · unfold handleAsyncOperationWithRetry
    cases hw : (withRetry now opR0 cfg0).1 <;> simp [exactlyOneSet]
  · unfold handleAsyncOperationNullable
    cases op with
    | ok v =>
      cases v with
      | none => exact absurd rfl h
      | some a => rfl
    | error e => rfl
  · unfold handleAsyncOperationWithRetryNullable
    cases hw : (withRetry now opR cfg).1 with
    | ok v =>
      cases v with
      | none =>
        obtain ⟨i, hi⟩ := withRetryGo_ok_inv now opR (mergeRetryConfig cfg)
          none (mergeRetryConfig cfg).maxRetries 0 hw
        exact absurd hi (hR i)
      | some a => simp [exactlyOneSet]
    | error e => simp [exactlyOneSet]

/-- Counterexample for C4 as stated: wrapping the actual
`getUserAirdropLeafData` operation in an environment where the claim
account does not exist (the operation legitimately resolves with null)
produces a result with *both* `data` and `error` absent — "exactly one of
{data, error} is set" fails. -/
theorem operation_wrapper_both_absent_counterexample :
    exactlyOneSet (handleAsyncOperationNullable 0 "eid"
      (getUserAirdropLeafData_op 0 envClaimAbsent "Dist" "User")
      "getUserAirdropLeafData"
      [("distributorPublicKeyString", .str "Dist"),
       ("userWalletPublicKeyString", .str "User")]) = false := by decide

/-- Witness for the amended C4 at concrete operations: a success, a
retried success, a non-null nullable success, and a retried failure all
have exactly one of `{data, error}` set. -/
theorem operation_wrapper_exactly_one_witness :
    exactlyOneSet (handleAsyncOperation 0 "eid"
        (.ok (42 : Nat)) "op" []) = true ∧
    exactlyOneSet (handleAsyncOperationWithRetry 0 "eid"
        (fun _ => .ok (42 : Nat)) "op" [] PartialRetryConfig.empty) = true ∧
    exactlyOneSet (handleAsyncOperationNullable 0 "eid"
        (.ok (some (7 : Nat))) "op" []) = true ∧
    exactlyOneSet (handleAsyncOperationWithRetryNullable 0 "eid"
        (fun _ => (.error (.errorObj "network down")
          : Except RawInput (Option Nat)))
        "op" [] PartialRetryConfig.empty) = true :=
  operation_wrapper_exactly_one 0 "eid" "op" [] (.ok 42)
    (fun _ => .ok 42) PartialRetryConfig.empty
    (.ok (some 7)) (by simp)
    (fun _ => .error (.errorObj "network down")) PartialRetryConfig.empty
    (fun n => by simp)

/-- **C5.** The batched fetch (hook query function) checks its preconditions
before any lookup: an absent or empty wallet key fails — for every
environment, so no lookup is attempted — with the `WALLET_NOT_CONNECTED`,
non-retryable error; an empty identifier list with a wallet key present
succeeds with the empty mapping rather than an error. -/
theorem batch_hook_preconditions (now : Nat) (errorId queryErrorId : String)
    (env : ChainEnv) (keys : List String) (user : Option String) :
    ((user = none ∨ user = some "") →
      useBatchUserAirdropData_queryFn now errorId queryErrorId env keys user
        = .error (hookWalletNotConnectedError now keys.length) ∧
      (hookWalletNotConnectedError now keys.length).code
        = .WALLET_NOT_CONNECTED ∧
      (hookWalletNotConnectedError now keys.length).retryable = false) ∧
    (∀ u, user = some u → ¬ (u = "") → keys = [] →
      useBatchUserAirdropData_queryFn now errorId queryErrorId env keys user
        = .ok emptyBatchData) := by
  constructor
  · intro hu
    refine ⟨?_, rfl, rfl⟩
    unfold useBatchUserAirdropData_queryFn
    rcases hu with h | h <;> subst h <;> simp
  · intro u hu hne hk
    subst hu
    subst hk
    unfold useBatchUserAirdropData_queryFn
    simp [hne]

/-- Witness for C5: with one identifier and no wallet key the hook fails
with the non-retryable `WALLET_NOT_CONNECTED` error; with a wallet key and
no identifiers it returns the empty mapping. -/
theorem batch_hook_preconditions_witness :
    (useBatchUserAirdropData_queryFn 0 "eid" "qid" envClaimAbsent ["A"] none
        = .error (hookWalletNotConnectedError 0 1) ∧
      (hookWalletNotConnectedError 0 1).code = .WALLET_NOT_CONNECTED ∧
      (hookWalletNotConnectedError 0 1).retryable = false) ∧
    useBatchUserAirdropData_queryFn 0 "eid" "qid" envClaimAbsent []
        (some "User") = .ok emptyBatchData :=
  ⟨(batch_hook_preconditions 0 "eid" "qid" envClaimAbsent ["A"] none).1
      (Or.inl rfl),
   (batch_hook_preconditions 0 "eid" "qid" envClaimAbsent [] (some "User")).2
      ("User") rfl (by decide) rfl⟩

lemma getUser_op_eval (now : Nat) (env : ChainEnv) (dist user : String)
    (hd : env.validKey dist = true) (hu : env.validKey user = true) :
    getUserAirdropLeafData_op now env dist user =
      match env.getClaim (env.derivePda dist user) with
      | .error e => .error e
      | .ok none => .ok none
      | .ok (some c) =>
        if !(isStreamflowClaimStatus c) then .ok none
        else .ok (some (singleLeafOfClaim c)) := by
  unfold getUserAirdropLeafData_op validatePublicKey
  rw [hd, hu]
  cases hc : env.getClaim (env.derivePda dist user) with
  | error e => simp [hc, validateRequired, Bind.bind, Except.bind]
  | ok v =>
    cases v <;> simp [hc, validateRequired, Bind.bind, Except.bind]

/-- **C9.** `getUserAirdropLeafData` degrades to absence (`null`), not an
error, in each of these cases: the claim-record lookup resolves with null
(account does not exist); the lookup throws a failure whose classified
message contains one of the absence markers ("account does not exist",
"leaf not found", "recipient not found", "invalid account data"); or the
fetched claim record fails shape validation. -/
theorem single_fetch_absence_cases (now : Nat) (errorId : String)
    (env : ChainEnv) (dist user : String)
    (hd : env.validKey dist = true) (hu : env.validKey user = true) :
    (env.getClaim (env.derivePda dist user) = .ok none →
      getUserAirdropLeafData now errorId env dist user = .ok none) ∧
    (∀ e, env.getClaim (env.derivePda dist user) = .error e →
      isAbsenceMessage (strToLower (classifiedMessage e)) = true →
      getUserAirdropLeafData now errorId env dist user = .ok none) ∧
    (∀ c, env.getClaim (env.derivePda dist user) = .ok (some c) →
      isStreamflowClaimStatus c = false →
      getUserAirdropLeafData now errorId env dist user = .ok none) := by
  have hop := getUser_op_eval now env dist user hd hu
  refine ⟨?_, ?_, ?_⟩
  · intro hc
    unfold getUserAirdropLeafData handleAsyncOperationNullable
    rw [hop, hc]
  · intro e hc habs
    unfold getUserAirdropLeafData handleAsyncOperationNullable
    rw [hop, hc]
    simp only [createStreamFlowError_message_eq, habs, if_pos]
  · intro c hc hval
    unfold getUserAirdropLeafData handleAsyncOperationNullable
    rw [hop, hc]
    simp [hval]

/-- Witness for C9: in an environment where the claim account does not
exist, the single-campaign lookup returns absence, not an error. -/
theorem single_fetch_absence_cases_witness :
    getUserAirdropLeafData 0 "eid" envClaimAbsent "Dist" "User" = .ok none :=
  (single_fetch_absence_cases 0 "eid" envClaimAbsent "Dist" "User"
    rfl rfl).1 rfl

/-- **C10.** The single-item path and the batch path compute the same
`UserAirdropLeafData` from a validated claim record, and for every validated
record the fields are: `totalAllocation = unlockedAmount + lockedAmount`,
`claimedAmount = lockedAmountWithdrawn`, `isClaimed = closed`. -/
theorem leaf_paths_agree (c : RawClaim)
    (hvalid : isStreamflowClaimStatus c = true) :
    singleLeafOfClaim c = batchLeafOfClaim c ∧
    (∀ u l b, c.unlockedAmount = some u → c.lockedAmount = some l →
      c.closed = some b →
      (singleLeafOfClaim c).totalAllocation = u + l ∧
      (batchLeafOfClaim c).totalAllocation = u + l ∧
      (singleLeafOfClaim c).claimedAmount = c.lockedAmountWithdrawn ∧
      (batchLeafOfClaim c).claimedAmount = c.lockedAmountWithdrawn ∧
      (singleLeafOfClaim c).isClaimed = b ∧
      (batchLeafOfClaim c).isClaimed = b) := by
  refine ⟨rfl, ?_⟩
  intro u l b hu hl hb
  simp [singleLeafOfClaim, batchLeafOfClaim, hu, hl, hb]

/-- Witness for C10 on a concrete validated claim record (10 unlocked, 5
locked, 2 withdrawn, not closed): both paths agree and produce total 15,
claimed 2, not claimed. -/
theorem leaf_paths_agree_witness :
    singleLeafOfClaim rawClaimEx = batchLeafOfClaim rawClaimEx ∧
    (singleLeafOfClaim rawClaimEx).totalAllocation = 15 ∧
    (singleLeafOfClaim rawClaimEx).claimedAmount = some 2 ∧
    (singleLeafOfClaim rawClaimEx).isClaimed = false := by
  have h := leaf_paths_agree rawClaimEx (by decide)
  have h2 := h.2 10 5 false rfl rfl rfl
  exact ⟨h.1, h2.1, h2.2.2.1, h2.2.2.2.2.1⟩

lemma batchFold_notMem (l : List (String × Option UserAirdropLeafData))
    (init : BatchUserAirdropData) (k : String)
    (h : ¬ (k ∈ l.map Prod.fst)) :
    (List.foldl (fun m pair => jsObjSet m pair.1 pair.2) init l) k
      = init k := by
  induction l generalizing init with
  | nil => rfl
  | cons x xs ih =>
    simp only [List.map_cons, List.mem_cons, not_or] at h
    simp only [List.foldl_cons]
    rw [ih _ h.2]
    unfold jsObjSet
    rw [if_neg h.1]

lemma batchFold_constVal (l : List (String × Option UserAirdropLeafData))
    (init : BatchUserAirdropData) (k : String)
    (v : Option UserAirdropLeafData)
    (hall : ∀ p, p ∈ l → p.1 = k → p.2 = v)
    (hmem : k ∈ l.map Prod.fst) :
    (List.foldl (fun m pair => jsObjSet m pair.1 pair.2) init l) k
      = some v := by
  induction l generalizing init with
  | nil => simp at hmem
  | cons x xs ih =>
    simp only [List.foldl_cons]
    by_cases hk : k ∈ xs.map Prod.fst
    · exact ih _ (fun p hp => hall p (List.mem_cons_of_mem _ hp)) hk
    · have hx : x.1 = k := by
        simp only [List.map_cons, List.mem_cons] at hmem
        rcases hmem with h | h
        · exact h.symm
        · exact absurd h hk
      rw [batchFold_notMem _ _ _ hk]
      have hv : x.2 = v := hall x (List.mem_cons_self x xs) hx
      unfold jsObjSet
      rw [hx, if_pos rfl, hv]

lemma batchClaimResults_eq_map (env : ChainEnv) (keys : List String)
    (userPk : String) :
    batchClaimResults env (batchClaimStatusPdas env keys userPk)
      = keys.map (fun k => (k, batchOutcome env userPk k)) := by
  unfold batchClaimResults batchClaimStatusPdas
  rw [List.map_map]
  apply List.map_congr_left
  intro k _
  by_cases hv : env.validKey k
  · simp only [Function.comp_apply, hv, if_true, batchOutcome]
    cases hc : env.getClaim (env.derivePda k userPk) with
    | error e => simp
    | ok c =>
      cases c with
      | none => simp
      | some cl =>
        simp only []
        split_ifs <;> simp
  · simp [Function.comp_apply, hv, batchOutcome]

lemma getBatch_eval (now : Nat) (errorId : String) (env : ChainEnv)
    (keys : List String) (user : String)
    (hu : env.validKey user = true) :
    getBatchUserAirdropLeafData now errorId env keys user
      = .ok (if keys.isEmpty then emptyBatchData
          else List.foldl (fun m pair => jsObjSet m pair.1 pair.2)
            emptyBatchData
            (keys.map (fun k => (k, batchOutcome env user k)))) := by
  unfold getBatchUserAirdropLeafData getBatchUserAirdropLeafData_op
    validatePublicKey handleAsyncOperation
  rw [hu]
  by_cases hk : keys.isEmpty
  · simp [hk, validateRequired, Bind.bind, Except.bind]
  · simp [hk, validateRequired, Bind.bind, Except.bind,
      batchClaimResults_eq_map]

/-- **C1.** For every environment, identifier list and parseable user key,
the batch fetch succeeds with a mapping whose key set is exactly the input
identifiers — a key is present in the mapping iff it is an input
identifier — and any identifier whose key derivation fails or whose
claim-record lookup throws is present mapped to the absence marker
(`null`), without failing the batch. -/
theorem batch_preserves_key_set (now : Nat) (errorId : String)
    (env : ChainEnv) (keys : List String) (user : String)
    (hu : env.validKey user = true) :
    ∃ m, getBatchUserAirdropLeafData now errorId env keys user = .ok m ∧
      (∀ k, (m k).isSome = true ↔ k ∈ keys) ∧
      (∀ k, k ∈ keys →
        (env.validKey k = false ∨
          (∃ e, env.getClaim (env.derivePda k user) = .error e)) →
        m k = some none) := by
  refine ⟨_, getBatch_eval now errorId env keys user hu, ?_, ?_⟩
  · intro k
    by_cases hk : keys.isEmpty
    · rw [if_pos hk]
      rw [List.isEmpty_iff] at hk
      subst hk
      simp [emptyBatchData]
    · rw [if_neg hk]
      by_cases hmem : k ∈ keys
      · rw [batchFold_constVal _ _ _ (batchOutcome env user k)]
        · simp [hmem]
        · intro p hp hpk
          rw [List.mem_map] at hp
          obtain ⟨a, _, ha⟩ := hp
          subst ha
          simp only at hpk
          subst hpk
          rfl
        · rw [List.map_map]
          simpa using hmem
      · rw [batchFold_notMem]
        · simp [emptyBatchData, hmem]
        · rw [List.map_map]
          simpa using hmem
  · intro k hkmem hfail
    have hne : ¬ (keys.isEmpty = true) := by
      cases keys with
      | nil => cases hkmem
      | cons a l => simp
    rw [if_neg hne]
    rw [batchFold_constVal _ _ _ (batchOutcome env user k)]
    · congr 1
      unfold batchOutcome
      rcases hfail with hbad | ⟨e, he⟩
      · simp [hbad]
      · by_cases hvk : env.validKey k = true
        · simp [hvk, he]
        · simp [hvk]
    · intro p hp hpk
      rw [List.mem_map] at hp
      obtain ⟨a, _, ha⟩ := hp
      subst ha
      simp only at hpk
      subst hpk
      rfl
    · rw [List.map_map]
      simpa using hkmem

/-- Witness for C1, the specified scenario: batch over ["A", "B", "C"] where
the lookup for "B" throws — the key set is exactly {A, B, C} and the failing
identifier maps to the absence marker. -/
theorem batch_preserves_key_set_witness :
    ∃ m, getBatchUserAirdropLeafData 0 "eid" envBatchMixed ["A", "B", "C"]
        "User" = .ok m ∧
      (∀ k, (m k).isSome = true ↔ k ∈ ["A", "B", "C"]) ∧
      (∀ k, k ∈ ["A", "B", "C"] →
        (envBatchMixed.validKey k = false ∨
          (∃ e, envBatchMixed.getClaim (envBatchMixed.derivePda k "User")
            = .error e)) →
        m k = some none) :=
  batch_preserves_key_set 0 "eid" envBatchMixed ["A", "B", "C"] "User" rfl

lemma withRetry_ok_head (now : Nat) (op : Nat → Except RawInput α)
    (cfg : PartialRetryConfig) (v : α) (h : op 0 = .ok v) :
    withRetry now op cfg = (.ok v, 1, []) := by
  unfold withRetry
  exact withRetryGo_ok_head now op _ v _ 0 h


lemma getAirdrops_eval (now : Nat) (errorId : String)
    (search : Nat → Except RawInput (Option (List RawDistributor)))
    (results : Option (List RawDistributor)) (h0 : search 0 = .ok results)
    (mintFilter admin : Option String) (limit : Option Int) :
    getAirdrops now errorId search mintFilter admin limit
      = .ok (processSearchResults results limit) := by
  unfold getAirdrops handleAsyncOperationWithRetry
  rw [withRetry_ok_head now _ _ (processSearchResults results limit)
    (by rw [h0])]
  rfl

lemma processSearchResults_none_limit (results : List RawDistributor) :
    processSearchResults (some results) none
      = List.insertionSort versionDesc (validSummaries results) := rfl

lemma processSearchResults_some_limit (results : List RawDistributor)
    (l : Int) :
    processSearchResults (some results) (some l)
      = if l != 0 && decide (0 < l)
          && decide (l < ((List.insertionSort versionDesc
            (validSummaries results)).length : Int)) then
          (List.insertionSort versionDesc (validSummaries results)).take
            l.toNat
        else List.insertionSort versionDesc (validSummaries results) := rfl

/-- **C8 (amended).** When the campaign search succeeds, `getAirdrops`
succeeds with a list that silently drops malformed raw records (every
returned summary comes from a record passing validation), is sorted by
descending version, and is truncated to `limit` exactly when a limit is
provided, is positive, and is smaller than the number of valid summaries;
otherwise all valid summaries are returned (a permutation of the
transformed valid records). -/
theorem campaign_list_processing (now : Nat) (errorId : String)
    (search : Nat → Except RawInput (Option (List RawDistributor)))
    (results : List RawDistributor) (h0 : search 0 = .ok (some results))
    (mintFilter admin : Option String) (limit : Option Int) :
    ∃ out, getAirdrops now errorId search mintFilter admin limit
        = .ok out ∧
      out.Pairwise versionDesc ∧
      (∀ a, a ∈ out → a ∈ validSummaries results) ∧
      (match limit with
       | some l =>
         if 0 < l ∧ l < ((validSummaries results).length : Int) then
           out.length = l.toNat
         else out.Perm (validSummaries results)
       | none => out.Perm (validSummaries results)) := by
  have hperm := List.perm_insertionSort versionDesc (validSummaries results)
  have hsorted : (List.insertionSort versionDesc
      (validSummaries results)).Pairwise versionDesc :=
    List.sorted_insertionSort versionDesc (validSummaries results)
  have hlen : (List.insertionSort versionDesc
        (validSummaries results)).length
      = (validSummaries results).length := hperm.length_eq
  refine ⟨processSearchResults (some results) limit,
    getAirdrops_eval now errorId search (some results) h0 mintFilter admin
      limit, ?_, ?_, ?_⟩
  · cases limit with
    | none =>
      rw [processSearchResults_none_limit]
      exact hsorted
    | some l =>
      rw [processSearchResults_some_limit]
      split
      · exact List.Pairwise.sublist (List.take_sublist _ _) hsorted
      · exact hsorted
  · intro a
    cases limit with
    | none =>
      rw [processSearchResults_none_limit]
      intro ha
      exact hperm.mem_iff.mp ha
    | some l =>
      rw [processSearchResults_some_limit]
      split
      · intro ha
        exact hperm.mem_iff.mp (List.take_subset _ _ ha)
      · intro ha
        exact hperm.mem_iff.mp ha
  · cases limit with
    | none =>
      rw [processSearchResults_none_limit]
      exact hperm
    | some l =>
      simp only []
      by_cases hcond : 0 < l ∧ l < ((validSummaries results).length : Int)
      · rw [if_pos hcond, processSearchResults_some_limit]
        split
        next hbtrue =>
          rw [List.length_take, hlen]
          omega
        next hbfalse =>
          exfalso
          simp only [Bool.and_eq_true, bne_iff_ne, ne_eq,
            decide_eq_true_eq, not_and] at hbfalse
          rw [hlen] at hbfalse
          omega
      · rw [if_neg hcond, processSearchResults_some_limit]
        split
        next hbtrue =>
          exfalso
          simp only [Bool.and_eq_true, bne_iff_ne, ne_eq,
            decide_eq_true_eq] at hbtrue
          rw [hlen] at hbtrue
          exact hcond ⟨hbtrue.1.2, hbtrue.2⟩
        next hbfalse =>
          exact hperm

/-- Counterexample for C8 as stated: limit 0 is provided and is smaller
than the number of valid summaries (2), yet the returned list is not
truncated to length 0 — the source requires the limit to be strictly
positive before truncating. -/
theorem getAirdrops_limit_zero_counterexample :
    getAirdrops 0 "eid" searchDistEx none none (some 0)
        = .ok [airdropInfoEx2, airdropInfoEx1] ∧
    (0 : Int) < (([airdropInfoEx2, airdropInfoEx1].length : Nat) : Int) ∧
    [airdropInfoEx2, airdropInfoEx1].length ≠ (0 : Int).toNat :=
  ⟨rfl, by decide, by decide⟩

/-- Witness for the amended C8: a search returning two valid records (the
versions 1 and 2) and one malformed record, with limit 1: the malformed
record is dropped, the output is sorted by descending version and truncated
to one entry. -/
theorem campaign_list_processing_witness :
    ∃ out, getAirdrops 0 "eid" searchDistEx none none (some 1) = .ok out ∧
      out.Pairwise versionDesc ∧
      (∀ a, a ∈ out →
        a ∈ validSummaries [rawDistEx1, rawDistBad, rawDistEx2]) ∧
      (match (some 1 : Option Int) with
       | some l =>
         if 0 < l ∧ l < ((validSummaries
             [rawDistEx1, rawDistBad, rawDistEx2]).length : Int) then
           out.length = l.toNat
         else out.Perm (validSummaries [rawDistEx1, rawDistBad, rawDistEx2])
       | none =>
         out.Perm (validSummaries [rawDistEx1, rawDistBad, rawDistEx2])) :=
  campaign_list_processing 0 "eid" searchDistEx
    [rawDistEx1, rawDistBad, rawDistEx2] rfl none none (some 1)
